import Mathlib

/-!
Verification of the snakemake-uge profile scripts against their design
document.  This file shallowly embeds the decision logic of
`uge_status.py` (StatusChecker) and `uge_submit.py` (Submitter), with the
OS boundary (`OSLayer.run_process`, `OSLayer.tail`) and the site
configuration (`CookieCutter`) modelled as explicit inputs, and settles
the documented properties against that embedding.

String primitives used by the Python code (`str.split`, `str.strip`,
`str.startswith`, slicing) are given structural char-list implementations
so that every definition evaluates on concrete inputs.
-/

namespace SnakemakeUge

/-- Python whitespace as stripped by `str.strip()` / `bytes.strip()`. -/
def pyIsSpace (c : Char) : Bool :=
  c = ' ' || c = '\t' || c = '\n' || c = '\x0d' || c = '\x0b' || c = '\x0c'

/-- Python `s.strip()`: remove leading and trailing whitespace. -/
def pyStrip (s : String) : String :=
  ⟨(((s.data.dropWhile pyIsSpace).reverse).dropWhile pyIsSpace).reverse⟩

/-- Python `s.startswith(marker)`. -/
def pyStartsWith (s marker : String) : Bool :=
  marker.data.isPrefixOf s.data

/-- Python `s.split(sep)` for a one-character separator, on char lists:
splitting never yields an empty list of fields. -/
def splitOnChar (c : Char) : List Char → List (List Char)
  | [] => [[]]
  | x :: xs =>
    match splitOnChar c xs with
    | [] => [[x]]
    | h :: t => if x = c then [] :: h :: t else (x :: h) :: t

/-- Python `s.split(sep)` for a one-character separator. -/
def pySplit (s : String) (c : Char) : List String :=
  (splitOnChar c s.data).map (fun l => ⟨l⟩)

/-- Python slice `s[-2:]`: the last two characters (the whole string when
it has fewer than two). -/
def pyLastTwo (s : String) : String :=
  ⟨(s.data.reverse.take 2).reverse⟩

/-- Whether the character sequence of `pat` occurs inside `s`
(Python `pat in s`). -/
def listContainsSeq : List Char → List Char → Bool
  | _, [] => true
  | [], _ :: _ => false
  | x :: xs, p :: ps => (p :: ps).isPrefixOf (x :: xs) || listContainsSeq xs (p :: ps)

/-- Whether the string `pat` occurs as a contiguous substring of `s`. -/
def strContains (s pat : String) : Bool :=
  listContainsSeq s.data pat.data

/-- Value of the decimal-digit word `l` (used to model Python `int(str)`). -/
def digitsToNat (l : List Char) : Nat :=
  l.foldl (fun a c => a * 10 + (c.toNat - '0'.toNat)) 0

/-- Python `int(s)` on an already-stripped string: an optional sign
followed by a non-empty run of decimal digits parses to that integer,
anything else raises `ValueError` (modelled as `none`).  Python also
accepts underscore grouping between digits; scheduler job ids never
contain it and it is not modelled. -/
def pyParseInt (s : String) : Option Int :=
  let core : String := if pyStartsWith s "+" || pyStartsWith s "-" then ⟨s.data.drop 1⟩ else s
  if core.data ≠ [] && core.data.all (fun c => c.isDigit) then
    some (if pyStartsWith s "-" then -(Int.ofNat (digitsToNat core.data))
          else Int.ofNat (digitsToNat core.data))
  else none

/-- Python exceptions arising in the `uge_status.py` code paths. -/
inductive PyExc where
  | qstatError (msg : String)
  | keyError (tok : String)
  | indexError
  | tailError (msg : String)
deriving DecidableEq

/-- Source `StatusChecker.STATUS_TABLE` from `uge_status.py`: the fixed mapping
from raw status tokens to the closed verdict set; a token outside the
table maps to `none` (a `KeyError` at the call sites). -/
def STATUS_TABLE : String → Option String
  | "r" => some "running"
  | "x" => some "running"
  | "t" => some "running"
  | "s" => some "running"
  | "R" => some "running"
  | "qw" => some "running"
  | "d" => some "failed"
  | "E" => some "failed"
  | "FAIL" => some "failed"
  | "1" => some "failed"
  | "SUCCESS" => some "success"
  | "0" => some "success"
  | _ => none

/-- Helper for `qstat_job_state`: Python's `for`/`break` scan over the
output lines, returning the parsed state of the first `job_state` line
and `""` when no line matches. -/
def qstatStateLoop : List String → String
  | [] => ""
  | line :: rest =>
    if pyStartsWith line "job_state" then pyStrip (pyLastTwo (pyStrip line))
    else qstatStateLoop rest

/-- Source `StatusChecker._qstat_job_state`: scan `output_stream.split("\n")` for
the first line starting with `job_state` and take
`line.strip()[-2:].strip()`; the empty string when no line matches. -/
def qstat_job_state (output_stream : String) : String :=
  qstatStateLoop (pySplit output_stream '\n')

/-- Source `StatusChecker._query_status_using_qstat` as a function of the
`(returncode, stdout, stderr)` triple that `OSLayer.run_process` returns
for `qstat -j {jobid}`.  A non-zero return code whose stderr starts with
`Following jobs do not exist` yields the sentinel `"finished"`; any other
non-zero return code, and an empty stdout, raise `QstatError`; a parsed
state token outside `STATUS_TABLE` raises `KeyError`; otherwise the
mapped verdict is returned. -/
def query_status_using_qstat (r : Int × String × String) : Except PyExc String :=
  if r.1 ≠ 0 then
    if pyStartsWith r.2.2 "Following jobs do not exist" then Except.ok "finished"
    else Except.error (PyExc.qstatError r.2.2)
  else if r.2.1 = "" then Except.error (PyExc.qstatError "empty output")
  else
    match STATUS_TABLE (qstat_job_state r.2.1) with
    | none => Except.error (PyExc.keyError (qstat_job_state r.2.1))
    | some v => Except.ok v

/-- What `OSLayer.tail(statlog, num_lines=1)` yields for the job's
completion-log file: the file may be absent (`FileNotFoundError`), the
tail command itself may fail (`TailError`), or the list of trailing
lines is returned (already decoded to strings). -/
inductive TailOutcome where
  | missing
  | tailFailed (msg : String)
  | lines (ls : List String)
deriving DecidableEq

/-- Source `StatusChecker._query_status_using_cluster_log`: a missing file
(`FileNotFoundError`, caught together with `ValueError`) returns
`STATUS_TABLE["r"] = "running"`; a `TailError` is not caught and
propagates; `lastline[0]` on an empty line list is an uncaught
`IndexError`; otherwise the stripped first returned line is looked up in
`STATUS_TABLE`, raising `KeyError` when it is not a key. -/
def query_status_using_cluster_log : TailOutcome → Except PyExc String
  | .missing => Except.ok "running"
  | .tailFailed m => Except.error (PyExc.tailError m)
  | .lines [] => Except.error PyExc.indexError
  | .lines (l :: _) =>
    match STATUS_TABLE (pyStrip l) with
    | none => Except.error (PyExc.keyError (pyStrip l))
    | some v => Except.ok v

/-- The environment one `StatusChecker.get_status()` call runs in: the
triple returned by the i-th `qstat` invocation, the completion-log tail
outcome, and the configured `max_status_checks`. -/
structure StatusEnv where
  qstat : Nat → Int × String × String
  statlog : TailOutcome
  max_status_checks : Nat

/-- Observable behaviour of one `get_status()` call: the returned verdict
(or the uncaught exception), how many times `qstat` ran, how many times
`time.sleep` ran, and whether the completion log was consulted. -/
structure Trace where
  result : Except PyExc String
  qstatCalls : Nat
  sleeps : Nat
  logRead : Bool

/-- The `for _ in range(self.max_status_checks)` retry loop of
`get_status`: each attempt calls `_query_status_using_qstat`; a
`QstatError` or `KeyError` sleeps `wait_between_tries` and retries; a
returned status breaks the loop.  Yields the status obtained (`none`
when the budget ran out), the number of qstat calls, and the number of
sleeps. -/
def pollLoop (q : Nat → Int × String × String) : Nat → Nat → Option String × Nat × Nat
  | _, 0 => (none, 0, 0)
  | start, n + 1 =>
    match query_status_using_qstat (q start) with
    | .ok s => (some s, 1, 0)
    | .error _ =>
      let rest := pollLoop q (start + 1) n
      (rest.1, rest.2.1 + 1, rest.2.2 + 1)

/-- Source `StatusChecker.get_status`: run the qstat retry loop; when it ends
with no status (`None`) or with the `"finished"` sentinel, resolve the
verdict via `_query_status_using_cluster_log`; otherwise return the
loop's verdict. -/
def get_status (env : StatusEnv) : Trace :=
  let r := pollLoop env.qstat 0 env.max_status_checks
  match r.1 with
  | none => ⟨query_status_using_cluster_log env.statlog, r.2.1, r.2.2, true⟩
  | some s =>
    if s = "finished" then
      ⟨query_status_using_cluster_log env.statlog, r.2.1, r.2.2, true⟩
    else ⟨Except.ok s, r.2.1, r.2.2, false⟩

/-- Environment `env` with its first qstat attempt consumed: attempt `i` of the
shifted environment is attempt `i + 1` of `env`, with one unit of the
attempt budget spent. -/
def envShift (env : StatusEnv) : StatusEnv :=
  ⟨fun i => env.qstat (i + 1), env.statlog, env.max_status_checks - 1⟩

/-- Modelled from the spec: `memory_units.py` (imported by
`uge_submit.py`) is not part of the sources; the spec fixes an immutable
quantity-with-unit type over KILO/MEGA/GIGA with exact power scaling, and
the repository's tests pin the decimal convention
(`Memory(5000, Unit.MEGA)` equals 5 GIGA).  `MUnit` is the source's
`Unit` enumeration, renamed to avoid the Lean builtin. -/
inductive MUnit where
  | KILO
  | MEGA
  | GIGA
deriving DecidableEq

/-- Modelled from the spec: the power-of-1000 exponent of a unit. -/
def MUnit.power : MUnit → Nat
  | .KILO => 1
  | .MEGA => 2
  | .GIGA => 3

/-- Modelled from the spec: a memory magnitude together with its unit. -/
structure Memory where
  value : ℚ
  unit : MUnit

/-- Modelled from the spec: `Memory.to(unit)` rescales the magnitude
exactly. -/
def Memory.to (m : Memory) (u : MUnit) : Memory :=
  ⟨m.value * (1000 : ℚ) ^ m.unit.power / (1000 : ℚ) ^ u.power, u⟩

/-- The `CookieCutter` site configuration values read by `uge_submit.py`. -/
structure CookieConfig where
  use_singularity : Bool
  default_threads : Int
  default_mem_mb : ℚ
  default_queue : String
  log_dir : String

/-- The `jobid` entry of the decoded job-properties payload: an integer
for single jobs, a UUID-like string for group jobs. -/
inductive JobIdVal where
  | int (n : Int)
  | str (s : String)
deriving DecidableEq

/-- The decoded `# properties = {json}` payload of a jobscript, restricted
to the keys `uge_submit.py` reads.  `resources` and `cluster` are open
mappings in the source; only the keys that are ever looked up are
modelled, plus `resources_threads`, which the job payload can carry but
which the code never reads. -/
structure JobProperties where
  type : Option String := none
  rule : Option String := none
  groupid : Option String := none
  jobid : Option JobIdVal := none
  wildcards : List (String × String) := []
  threads : Option Int := none
  resources_threads : Option Int := none
  resources_mem_mb : Option ℚ := none
  resources_pe : Option String := none
  cluster_mem_mb : Option ℚ := none
  cluster_runtime : Option Int := none
  cluster_queue : Option String := none
  cluster_jobname : Option String := none

/-- Python exceptions arising in the `uge_submit.py` code paths. -/
inductive SubExc where
  | qsubInvocationError
  | jobidNotFoundError
  | valueError
  | attributeError
deriving DecidableEq

/-- Source `Submitter.threads`: `job_properties.get("threads",
CookieCutter.get_default_threads())` — the top-level `threads` key, with
the site default as fallback.  No validation is performed. -/
def Submitter.threads (cfg : CookieConfig) (p : JobProperties) : Int :=
  p.threads.getD cfg.default_threads

/-- Python's falsy-coalescing `if not mem_value` chain: a missing or zero
value falls through to the next candidate. -/
def orFalsy (o : Option ℚ) (k : ℚ) : ℚ :=
  match o with
  | some x => if x = 0 then k else x
  | none => k

/-- Source `Submitter.mem_mb`: first truthy of `resources.mem_mb`,
`cluster.mem_mb`, `CookieCutter.get_default_mem_mb()`, wrapped as a MEGA
memory value. -/
def Submitter.mem_mb (cfg : CookieConfig) (p : JobProperties) : Memory :=
  ⟨orFalsy p.resources_mem_mb (orFalsy p.cluster_mem_mb cfg.default_mem_mb), MUnit.MEGA⟩

/-- Source `Submitter.runtime`: `cluster.get("runtime", None)`, passed through
`int()` when truthy (identity on the integers modelled here). -/
def Submitter.runtime (p : JobProperties) : Option Int :=
  p.cluster_runtime

/-- Source `Submitter.penv`: `resources.get("pe", "def_slot")`. -/
def Submitter.penv (p : JobProperties) : String :=
  p.resources_pe.getD "def_slot"

/-- Round half to even (Python's `round` tie-breaking) to an integer. -/
def rhe (q : ℚ) : ℤ :=
  if q - ⌊q⌋ < 1 / 2 then ⌊q⌋
  else if 1 / 2 < q - ⌊q⌋ then ⌊q⌋ + 1
  else if ⌊q⌋ % 2 = 0 then ⌊q⌋ else ⌊q⌋ + 1

/-- Python `round(x, 2)`: banker's rounding to two decimal places,
idealised over exact rationals (the program computes with binary floats;
the concrete inputs used in this development are far from ties, where
the two agree). -/
def pyRound2 (q : ℚ) : ℚ :=
  ((rhe (q * 100) : ℤ) : ℚ) / 100

/-- The per-thread magnitude computed inline in
`Submitter.resources_cmd` before the singularity floor: for
`threads > 1` it is `math.ceil(round(mem / threads, 2))`, otherwise
`math.ceil(mem)`, where `mem` is the resolved total converted to the
submitter's memory units. -/
def Submitter.perThreadPre (cfg : CookieConfig) (p : JobProperties) (u : MUnit) : ℤ :=
  let mem := (Submitter.mem_mb cfg p).to u
  if 1 < Submitter.threads cfg p then
    ⌈pyRound2 (mem.value / (Submitter.threads cfg p : ℚ))⌉
  else ⌈mem.value⌉

/-- The per-thread magnitude actually emitted: `max(4, per_thread)` when
`CookieCutter.get_use_singularity()` is set, unchanged otherwise. -/
def Submitter.perThread (cfg : CookieConfig) (p : JobProperties) (u : MUnit) : ℤ :=
  if cfg.use_singularity then max 4 (Submitter.perThreadPre cfg p u)
  else Submitter.perThreadPre cfg p u

/-- The leading `-pe {penv} {threads} ` fragment of
`Submitter.resources_cmd`, emitted only for `threads > 1`. -/
def Submitter.peCmd (cfg : CookieConfig) (p : JobProperties) : String :=
  if 1 < Submitter.threads cfg p then
    "-pe " ++ Submitter.penv p ++ " " ++ toString (Submitter.threads cfg p) ++ " "
  else ""

/-- The trailing runtime fragment of `Submitter.resources_cmd`: when
`self.runtime` is truthy, ` -l h_rt={runtime // 60}:{runtime % 60}:00`. -/
def Submitter.runtimeSuffix (p : JobProperties) : String :=
  match Submitter.runtime p with
  | some r =>
    if r ≠ 0 then
      " -l h_rt=" ++ toString (Int.fdiv r 60) ++ ":" ++ toString (Int.emod r 60) ++ ":00"
    else ""
  | none => ""

/-- Source `Submitter.resources_cmd`: the parallel-environment fragment, the two
memory-reservation flags carrying the per-thread magnitude, and the
runtime fragment, concatenated exactly as the Python string building
does. -/
def Submitter.resources_cmd (cfg : CookieConfig) (p : JobProperties) (u : MUnit) : String :=
  Submitter.peCmd cfg p
    ++ "-l s_vmem=" ++ toString (Submitter.perThread cfg p u) ++ "G "
    ++ "-l mem_req=" ++ toString (Submitter.perThread cfg p u) ++ "G"
    ++ Submitter.runtimeSuffix p

/-- Source `Submitter.is_group_jobtype`: `job_properties.get("type", "") ==
"group"`. -/
def Submitter.is_group_jobtype (p : JobProperties) : Bool :=
  p.type.getD "" = "group"

/-- Python `str(x)` on the optional jobid value (`str(None)` is
`"None"`). -/
def pyStr : Option JobIdVal → String
  | none => "None"
  | some (.int n) => toString n
  | some (.str s) => s

/-- Python `s.split("-")[0]`: the leading hyphen-delimited segment. -/
def splitFirst (s : String) : String :=
  (pySplit s '-').headD ""

/-- Source `Submitter.jobid`: group jobs take
`job_properties.get("jobid", "").split("-")[0]` (an `AttributeError` if
the payload held an integer there); single jobs take
`str(job_properties.get("jobid"))` verbatim. -/
def Submitter.jobid (p : JobProperties) : Except SubExc String :=
  if Submitter.is_group_jobtype p then
    match p.jobid with
    | some (JobIdVal.str s) => Except.ok (splitFirst s)
    | some (JobIdVal.int _) => Except.error SubExc.attributeError
    | none => Except.ok (splitFirst "")
  else Except.ok (pyStr p.jobid)

/-- Source `Submitter.submit` composed with `_submit_cmd_and_get_external_job_id`
and `OSLayer.run_process`, as a function of the `(returncode, stdout,
stderr)` triple of the qsub invocation.  `run_process` calls
`subprocess.run(..., check=False)`, which returns the triple for every
exit code and never raises `CalledProcessError`, so the
`except subprocess.CalledProcessError` arm (the only producer of
`QsubInvocationError`) is unreachable; empty stdout raises
`JobidNotFoundError`; `int(stdout)` on a non-empty, non-integer stdout
raises an uncaught `ValueError`; otherwise the parsed external job id is
printed. -/
def Submitter.submit (r : Int × String × String) : Except SubExc Int :=
  if r.2.1 = "" then Except.error SubExc.jobidNotFoundError
  else
    match pyParseInt r.2.1 with
    | some n => Except.ok n
    | none => Except.error SubExc.valueError

/-- A site configuration with the singularity flag off (thread default 8,
memory default 1000 MB, queue `q1`), mirroring the repository's test
fixtures. -/
def cfgStd : CookieConfig := ⟨false, 8, 1000, "q1", "logdir"⟩

/-- The same site configuration with the singularity flag on. -/
def cfgSing : CookieConfig := ⟨true, 8, 1000, "q1", "logdir"⟩

/-- A polling environment whose completion log holds `"0"` while qstat
reports the job running. -/
def envC1 : StatusEnv := ⟨fun _ => (0, "job_state  1:    r", ""), TailOutcome.lines ["0"], 3⟩

/-- A polling environment whose completion log holds `"0"` and whose
qstat reports the job gone. -/
def envC1W : StatusEnv := ⟨fun _ => (1, "", "Following jobs do not exist: 1"), TailOutcome.lines ["0"], 2⟩

/-- A polling environment with budget 1 where qstat always fails and no
completion log exists. -/
def envC2 : StatusEnv := ⟨fun _ => (1, "", "boom"), TailOutcome.missing, 1⟩

/-- A polling environment where qstat always returns empty output and no
completion log exists. -/
def envC2W : StatusEnv := ⟨fun _ => (0, "", ""), TailOutcome.missing, 2⟩

/-- A polling environment where qstat reports the job gone and the
completion log holds an unrecognized token. -/
def envC3 : StatusEnv := ⟨fun _ => (1, "", "Following jobs do not exist: 3"), TailOutcome.lines ["weird"], 1⟩

/-- A polling environment whose qstat output parses to the unrecognized
state token `zz`, with a completion log holding `"1"`. -/
def envC3W : StatusEnv := ⟨fun _ => (0, "job_state  1:    zz", ""), TailOutcome.lines ["1"], 2⟩

/-- A polling environment where qstat reports the job gone and no
completion log exists. -/
def envC9W : StatusEnv := ⟨fun _ => (1, "", "Following jobs do not exist: 9"), TailOutcome.missing, 3⟩

/-- Job properties requesting 1 thread, 1000 MB and a 90-minute runtime. -/
def pC4 : JobProperties := { threads := some 1, resources_mem_mb := some 1000, cluster_runtime := some 90 }

/-- Job properties requesting 2 threads and 6008 MB. -/
def pC5 : JobProperties := { threads := some 2, resources_mem_mb := some 6008 }

/-- Job properties carrying `threads` only inside `resources`. -/
def pC7a : JobProperties := { resources_threads := some 7 }

/-- Job properties with a non-positive top-level thread count. -/
def pC7b : JobProperties := { threads := some (-3) }

/-- A group job whose `jobid` is a UUID-like hyphenated string. -/
def pC8g : JobProperties := { type := some "group", jobid := some (JobIdVal.str "a9722c33-51ba-5ac4-9f17-bab04c68bc3d") }

/-- A single job whose `jobid` string happens to contain a hyphen. -/
def pC8s : JobProperties := { type := some "single", jobid := some (JobIdVal.str "ab-cd") }

/-- Job properties requesting 1 thread and 1000 MB. -/
def pC10 : JobProperties := { threads := some 1, resources_mem_mb := some 1000 }

lemma pollLoop_shift (q : Nat → Int × String × String) :
    ∀ (n start : Nat), pollLoop q (start + 1) n = pollLoop (fun i => q (i + 1)) start n := by
  intro n
  induction n with
  | zero => intro start; rfl
  | succ n ih =>
    intro start
    simp only [pollLoop]
    cases hq : query_status_using_qstat (q (start + 1)) with
    | ok s => rfl
    | error e => simp [ih (start + 1)]

lemma pollLoop_allFail (q : Nat → Int × String × String) :
    ∀ (n start : Nat),
      (∀ i, i < n → (query_status_using_qstat (q (start + i))).isOk = false) →
      pollLoop q start n = (none, n, n) := by
  intro n
  induction n with
  | zero => intro start _; rfl
  | succ n ih =>
    intro start h
    have h0 : (query_status_using_qstat (q start)).isOk = false := by
      simpa using h 0 (Nat.succ_pos n)
    simp only [pollLoop]
    cases hq : query_status_using_qstat (q start) with
    | ok s => rw [hq] at h0; simp [Except.isOk, Except.toBool] at h0
    | error e =>
      have hrest : pollLoop q (start + 1) n = (none, n, n) := by
        refine ih (start + 1) (fun i hi => ?_)
        have := h (i + 1) (Nat.succ_lt_succ hi)
        rwa [show start + (i + 1) = start + 1 + i by omega] at this
      simp [hrest]

lemma pollLoop_calls_pos (q : Nat → Int × String × String) (start n : Nat) :
    1 ≤ (pollLoop q start (n + 1)).2.1 := by
  simp only [pollLoop]
  cases hq : query_status_using_qstat (q start) <;> simp

lemma get_status_calls (env : StatusEnv) :
    (get_status env).qstatCalls = (pollLoop env.qstat 0 env.max_status_checks).2.1 := by
  simp only [get_status]
  rcases h : (pollLoop env.qstat 0 env.max_status_checks).1 with _ | s
  · simp [h]
  · by_cases hf : s = "finished" <;> simp [h, hf]

/-- C1: the spec claims the completion-log read is attempted before the
queue query and that a completion log holding `"0"` yields `success`
with no queue invocation.  In `envC1` the completion log holds `"0"`,
yet `get_status` invokes qstat (once) and returns that queue verdict,
`"running"`, not `"success"`. -/
theorem c1_counterexample :
    envC1.statlog = TailOutcome.lines ["0"] ∧
    (get_status envC1).qstatCalls = 1 ∧
    (get_status envC1).result = Except.ok "running" ∧
    ("running" : String) ≠ "success" :=
  ⟨rfl, by decide, rfl, by decide⟩

/-- C1 (amended): the queue query comes first — with a positive budget
qstat is always invoked at least once — and the completion log is only
consulted afterwards; when the first qstat reports the job gone and the
log holds `"0"`, `get_status` returns `success` after exactly one queue
invocation and no sleep. -/
theorem c1_amended (env : StatusEnv) (h0 : 0 < env.max_status_checks)
    (hrc : (env.qstat 0).1 ≠ 0)
    (hse : pyStartsWith (env.qstat 0).2.2 "Following jobs do not exist" = true)
    (hlog : env.statlog = TailOutcome.lines ["0"]) :
    ((get_status env).result = Except.ok "success" ∧
     (get_status env).qstatCalls = 1 ∧ (get_status env).sleeps = 0) ∧
    ∀ e : StatusEnv, 0 < e.max_status_checks → 1 ≤ (get_status e).qstatCalls := by
  have hq : query_status_using_qstat (env.qstat 0) = Except.ok "finished" := by
    unfold query_status_using_qstat
    rw [if_pos hrc, if_pos hse]
  obtain ⟨m, hm⟩ : ∃ m, env.max_status_checks = m + 1 :=
    ⟨env.max_status_checks - 1, by omega⟩
  have hp : pollLoop env.qstat 0 env.max_status_checks = (some "finished", 1, 0) := by
    rw [hm]; simp [pollLoop, hq]
  constructor
  · have hg : get_status env =
        ⟨query_status_using_cluster_log env.statlog, 1, 0, true⟩ := by
      simp only [get_status, hp]; rfl
    rw [hg, hlog]
    exact ⟨rfl, rfl, rfl⟩
  · intro e he
    obtain ⟨k, hk⟩ : ∃ k, e.max_status_checks = k + 1 :=
      ⟨e.max_status_checks - 1, by omega⟩
    rw [get_status_calls, hk]
    exact pollLoop_calls_pos _ _ _

/-- C1 witness: the amended theorem applied to `envC1W`. -/
theorem c1_witness : (get_status envC1W).result = Except.ok "success" :=
  (c1_amended envC1W (by decide) (by decide) (by decide) rfl).1.1

/-- C2: the spec claims an exhausted attempt budget yields the verdict
`failed`.  In `envC2` the budget (1 attempt) is exhausted without any
mappable token, yet `get_status` returns `"running"` (the missing-log
fallback), not `"failed"`. -/
theorem c2_counterexample :
    (get_status envC2).result = Except.ok "running" ∧
    ("running" : String) ≠ "failed" ∧
    (get_status envC2).qstatCalls = envC2.max_status_checks :=
  ⟨rfl, by decide, by decide⟩

/-- C2 (amended): when every attempt fails to produce a status, the
budget is fully consumed (one qstat call and one sleep per attempt) and
the verdict is whatever `_query_status_using_cluster_log` resolves — in
particular `"running"` when the completion log does not exist, never a
blanket `"failed"`. -/
theorem c2_amended (env : StatusEnv)
    (h : ∀ i, i < env.max_status_checks →
      (query_status_using_qstat (env.qstat i)).isOk = false) :
    (get_status env).result = query_status_using_cluster_log env.statlog ∧
    (get_status env).qstatCalls = env.max_status_checks ∧
    (get_status env).sleeps = env.max_status_checks ∧
    (env.statlog = TailOutcome.missing →
      (get_status env).result = Except.ok "running") := by
  have hp : pollLoop env.qstat 0 env.max_status_checks =
      (none, env.max_status_checks, env.max_status_checks) :=
    pollLoop_allFail env.qstat env.max_status_checks 0 (fun i hi => by simpa using h i hi)
  have hg : get_status env =
      ⟨query_status_using_cluster_log env.statlog,
       env.max_status_checks, env.max_status_checks, true⟩ := by
    simp only [get_status, hp]
  rw [hg]
  exact ⟨rfl, rfl, rfl, fun hl => by rw [hl]; rfl⟩

/-- C2 witness: the amended theorem applied to `envC2W`. -/
theorem c2_witness : (get_status envC2W).result = Except.ok "running" :=
  (c2_amended envC2W (fun _ _ => rfl)).2.2.2 rfl

/-- C3: the spec claims an unrecognized token from either source causes
a sleep-and-retry.  In `envC3` the completion log holds the unrecognized
token `"weird"`; `get_status` neither sleeps nor retries: the `KeyError`
escapes. -/
theorem c3_counterexample :
    (get_status envC3).result = Except.error (PyExc.keyError "weird") ∧
    (get_status envC3).sleeps = 0 :=
  ⟨rfl, by decide⟩

/-- C3 (amended): an unrecognized token from the queue query is indeed a
sleep-and-retry (the trace is the shifted environment's trace plus one
qstat call and one sleep), but an unrecognized token in the completion
log raises `KeyError` out of `get_status` — in neither case is the token
coerced to a verdict. -/
theorem c3_amended (env : StatusEnv) (t : String) (h0 : 0 < env.max_status_checks)
    (hk : query_status_using_qstat (env.qstat 0) = Except.error (PyExc.keyError t)) :
    ((get_status env).result = (get_status (envShift env)).result ∧
     (get_status env).qstatCalls = (get_status (envShift env)).qstatCalls + 1 ∧
     (get_status env).sleeps = (get_status (envShift env)).sleeps + 1) ∧
    ∀ u rest, STATUS_TABLE (pyStrip u) = none →
      query_status_using_cluster_log (TailOutcome.lines (u :: rest)) =
        Except.error (PyExc.keyError (pyStrip u)) := by
  constructor
  · obtain ⟨m, hm⟩ : ∃ m, env.max_status_checks = m + 1 :=
      ⟨env.max_status_checks - 1, by omega⟩
    have hshift : (envShift env).max_status_checks = m := by simp [envShift, hm]
    have hp : pollLoop env.qstat 0 env.max_status_checks =
        ((pollLoop (envShift env).qstat 0 m).1,
         (pollLoop (envShift env).qstat 0 m).2.1 + 1,
         (pollLoop (envShift env).qstat 0 m).2.2 + 1) := by
      rw [hm]
      simp only [pollLoop, hk]
      rw [pollLoop_shift]
      rfl
    simp only [get_status, hp, hshift]
    rcases hh : (pollLoop (envShift env).qstat 0 m).1 with _ | s
    · simp [hh, envShift]
    · by_cases hf : s = "finished" <;> simp [hh, hf, envShift]
  · intro u rest h
    simp [query_status_using_cluster_log, h]

/-- C3 witness: the amended theorem applied to `envC3W`, whose first
qstat attempt yields the unrecognized queue token `zz`. -/
theorem c3_witness :
    (get_status envC3W).sleeps = (get_status (envShift envC3W)).sleeps + 1 :=
  (c3_amended envC3W "zz" (by decide) rfl).1.2.2

/-- C9: when qstat exits non-zero with stderr starting with `Following
jobs do not exist`, `get_status` stops querying the queue (exactly one
qstat call, no sleeps) and resolves the verdict from the completion log;
a missing completion log yields `"running"`. -/
theorem c9_job_gone (env : StatusEnv) (h0 : 0 < env.max_status_checks)
    (hrc : (env.qstat 0).1 ≠ 0)
    (hse : pyStartsWith (env.qstat 0).2.2 "Following jobs do not exist" = true) :
    (get_status env).result = query_status_using_cluster_log env.statlog ∧
    (get_status env).qstatCalls = 1 ∧ (get_status env).sleeps = 0 ∧
    (env.statlog = TailOutcome.missing →
      (get_status env).result = Except.ok "running") := by
  have hq : query_status_using_qstat (env.qstat 0) = Except.ok "finished" := by
    unfold query_status_using_qstat
    rw [if_pos hrc, if_pos hse]
  obtain ⟨m, hm⟩ : ∃ m, env.max_status_checks = m + 1 :=
    ⟨env.max_status_checks - 1, by omega⟩
  have hp : pollLoop env.qstat 0 env.max_status_checks = (some "finished", 1, 0) := by
    rw [hm]; simp [pollLoop, hq]
  have hg : get_status env =
      ⟨query_status_using_cluster_log env.statlog, 1, 0, true⟩ := by
    simp only [get_status, hp]; rfl
  rw [hg]
  exact ⟨rfl, rfl, rfl, fun hl => by rw [hl]; rfl⟩

/-- C9 witness: the theorem applied to `envC9W`. -/
theorem c9_witness : (get_status envC9W).result = Except.ok "running" :=
  (c9_job_gone envC9W (by decide) (by decide) (by decide)).2.2.2 rfl

lemma le_rhe (q : ℚ) : q - 1 / 2 ≤ (rhe q : ℚ) := by
  unfold rhe
  have hfl : (⌊q⌋ : ℚ) ≤ q := Int.floor_le q
  have hlt : q < ⌊q⌋ + 1 := Int.lt_floor_add_one q
  split_ifs with h1 h2 h3 <;> push_cast <;> linarith

lemma rhe_le_ceil (q : ℚ) : rhe q ≤ ⌈q⌉ := by
  unfold rhe
  split_ifs with h1 h2 h3
  · exact Int.floor_le_ceil q
  · exact Int.add_one_le_iff.mpr (Int.lt_ceil.mpr (by linarith))
  · exact Int.floor_le_ceil q
  · have h : (1 : ℚ) / 2 ≤ q - ⌊q⌋ := le_of_not_lt h1
    exact Int.add_one_le_iff.mpr (Int.lt_ceil.mpr (by linarith))

lemma pyRound2_le_ceil (x : ℚ) : pyRound2 x ≤ (⌈x⌉ : ℚ) := by
  unfold pyRound2
  have h1 : ((rhe (x * 100) : ℤ) : ℚ) ≤ ((⌈x * 100⌉ : ℤ) : ℚ) := by
    exact_mod_cast rhe_le_ceil (x * 100)
  have h2 : ((⌈x * 100⌉ : ℤ) : ℚ) ≤ (⌈x⌉ : ℚ) * 100 := by
    have h : ⌈x * 100⌉ ≤ ⌈x⌉ * 100 := by
      refine Int.ceil_le.mpr ?_
      push_cast
      exact mul_le_mul_of_nonneg_right (Int.le_ceil x) (by norm_num)
    exact_mod_cast h
  linarith

lemma le_pyRound2 (x : ℚ) : x - 1 / 200 ≤ pyRound2 x := by
  unfold pyRound2
  have h := le_rhe (x * 100)
  linarith

lemma ceil_pyRound2_le (x : ℚ) : ⌈pyRound2 x⌉ ≤ ⌈x⌉ :=
  Int.ceil_le.mpr (pyRound2_le_ceil x)

lemma ceil_sub_one_le_ceil_pyRound2 (x : ℚ) : ⌈x⌉ - 1 ≤ ⌈pyRound2 x⌉ := by
  have h3 : ⌈x - 1 / 200⌉ ≤ ⌈pyRound2 x⌉ := Int.ceil_mono (le_pyRound2 x)
  have h2 : ⌈x - 1⌉ ≤ ⌈x - 1 / 200⌉ := Int.ceil_mono (by linarith)
  have h4 : ⌈x - 1⌉ = ⌈x⌉ - 1 := by
    have h := Int.ceil_sub_int x 1
    push_cast at h
    exact h
  omega

lemma rhe_eq_low (q : ℚ) (n : ℤ) (h1 : (n : ℚ) ≤ q) (h2 : q < (n : ℚ) + 1 / 2) :
    rhe q = n := by
  have hf : ⌊q⌋ = n := Int.floor_eq_iff.mpr ⟨h1, by linarith⟩
  unfold rhe
  rw [hf]
  rw [if_pos (by linarith : q - (n : ℚ) < 1 / 2)]

lemma splitOnChar_ne_nil (c : Char) (l : List Char) : splitOnChar c l ≠ [] := by
  cases l with
  | nil => simp [splitOnChar]
  | cons x xs =>
    simp only [splitOnChar]
    cases h : splitOnChar c xs with
    | nil => simp
    | cons a t => split_ifs <;> simp

lemma splitOnChar_headD (c : Char) (l : List Char) :
    (splitOnChar c l).headD [] = l.takeWhile (fun x => x ≠ c) := by
  induction l with
  | nil => rfl
  | cons x xs ih =>
    simp only [splitOnChar]
    cases h : splitOnChar c xs with
    | nil => exact absurd h (splitOnChar_ne_nil c xs)
    | cons a t =>
      rw [h] at ih
      simp only [List.headD_cons] at ih
      by_cases hx : x = c
      · simp [hx, List.takeWhile_cons]
      · simp [hx, List.takeWhile_cons, ih]

lemma splitFirst_eq_takeWhile (s : String) :
    splitFirst s = ⟨s.data.takeWhile (fun c => c ≠ '-')⟩ := by
  unfold splitFirst pySplit
  cases h : splitOnChar '-' s.data with
  | nil => exact absurd h (splitOnChar_ne_nil '-' s.data)
  | cons a t =>
    have hh := splitOnChar_headD '-' s.data
    rw [h] at hh
    simp only [List.headD_cons] at hh
    simp [hh]

/-- C4: the spec claims a present `cluster.runtime` yields both a hard
and a soft runtime-limit flag with identical values.  With a 90-minute
runtime the emitted resource string carries only the hard `-l h_rt` flag
and contains no `s_rt` at all. -/
theorem c4_counterexample :
    Submitter.resources_cmd cfgStd pC4 MUnit.GIGA =
      "-l s_vmem=1G -l mem_req=1G -l h_rt=1:30:00" ∧
    strContains "-l s_vmem=1G -l mem_req=1G -l h_rt=1:30:00" "s_rt" = false ∧
    strContains "-l s_vmem=1G -l mem_req=1G -l h_rt=1:30:00" "h_rt" = true := by
  have h1 : Submitter.threads cfgStd pC4 = 1 := rfl
  have hs : cfgStd.use_singularity = false := rfl
  have hv : Submitter.perThread cfgStd pC4 MUnit.GIGA = 1 := by
    simp only [Submitter.perThread, hs, Bool.false_eq_true, if_false]
    simp only [Submitter.perThreadPre, h1]
    rw [if_neg (by decide : ¬((1 : ℤ) < 1))]
    have hm : ((Submitter.mem_mb cfgStd pC4).to MUnit.GIGA).value = 1 := by
      simp only [Submitter.mem_mb, Memory.to, MUnit.power, orFalsy, cfgStd, pC4]
      norm_num
    rw [hm]
    exact Int.ceil_one
  refine ⟨?_, by decide, by decide⟩
  unfold Submitter.resources_cmd
  rw [hv]
  rfl

/-- C4 (amended): a present, non-zero `cluster.runtime` contributes
exactly the single hard flag ` -l h_rt={runtime // 60}:{runtime % 60}:00`
appended to the runtime-free resource string; no soft flag is emitted. -/
theorem c4_amended (cfg : CookieConfig) (p : JobProperties) (u : MUnit) (r : Int)
    (h : p.cluster_runtime = some r) (hr : r ≠ 0) :
    Submitter.resources_cmd cfg p u =
      Submitter.resources_cmd cfg { p with cluster_runtime := none } u
        ++ (" -l h_rt=" ++ toString (Int.fdiv r 60) ++ ":" ++ toString (Int.emod r 60) ++ ":00") ∧
    Submitter.runtimeSuffix { p with cluster_runtime := none } = "" := by
  constructor
  · unfold Submitter.resources_cmd
    have h2 : Submitter.runtimeSuffix p =
        " -l h_rt=" ++ toString (Int.fdiv r 60) ++ ":" ++ toString (Int.emod r 60) ++ ":00" := by
      unfold Submitter.runtimeSuffix Submitter.runtime
      rw [h]
      simp [hr]
    have h3 : Submitter.runtimeSuffix { p with cluster_runtime := none } = "" := rfl
    have h4 : Submitter.perThread cfg { p with cluster_runtime := none } u =
        Submitter.perThread cfg p u := rfl
    have h5 : Submitter.peCmd cfg { p with cluster_runtime := none } =
        Submitter.peCmd cfg p := rfl
    rw [h2, h3, h4, h5]
    simp [String.append_empty, String.append_assoc]
  · rfl

/-- C4 witness: the amended theorem applied to `pC4` (runtime 90). -/
theorem c4_witness :
    Submitter.resources_cmd cfgStd pC4 MUnit.GIGA =
      Submitter.resources_cmd cfgStd { pC4 with cluster_runtime := none } MUnit.GIGA
        ++ (" -l h_rt=" ++ toString (Int.fdiv (90 : ℤ) 60) ++ ":"
            ++ toString (Int.emod (90 : ℤ) 60) ++ ":00") :=
  (c4_amended cfgStd pC4 MUnit.GIGA 90 rfl (by decide)).1

/-- C5: the spec claims the per-thread magnitude is always the exact
ceiling of total/threads.  With 6008 MB over 2 threads the total in GIGA
is 751/125 and the quotient 751/250 = 3.004; the code rounds to two
decimals (3.0) before `ceil` and emits 3, while the exact ceiling is 4. -/
theorem c5_counterexample :
    Submitter.perThread cfgStd pC5 MUnit.GIGA = 3 ∧
    ⌈((Submitter.mem_mb cfgStd pC5).to MUnit.GIGA).value /
        (Submitter.threads cfgStd pC5 : ℚ)⌉ = 4 ∧
    (3 : ℤ) ≠ 4 := by
  have hm : ((Submitter.mem_mb cfgStd pC5).to MUnit.GIGA).value = 751 / 125 := by
    simp only [Submitter.mem_mb, Memory.to, MUnit.power, orFalsy, cfgStd, pC5]
    norm_num
  have ht : Submitter.threads cfgStd pC5 = 2 := rfl
  have hs : cfgStd.use_singularity = false := rfl
  refine ⟨?_, ?_, by decide⟩
  · simp only [Submitter.perThread, hs, Bool.false_eq_true, if_false]
    simp only [Submitter.perThreadPre, ht, hm]
    rw [if_pos (by decide : (1 : ℤ) < 2)]
    have harg : ((751 : ℚ) / 125) / ((2 : ℤ) : ℚ) = 751 / 250 := by
      push_cast
      norm_num
    rw [harg]
    have hr : pyRound2 ((751 : ℚ) / 250) = 3 := by
      unfold pyRound2
      have h300 : rhe ((751 : ℚ) / 250 * 100) = 300 := by
        have ha : ((751 : ℚ) / 250 * 100) = 1502 / 5 := by norm_num
        rw [ha]
        exact rhe_eq_low _ 300 (by norm_num) (by norm_num)
      rw [h300]
      norm_num
    rw [hr]
    have h3 : ((3 : ℚ)) = ((3 : ℤ) : ℚ) := by norm_num
    rw [h3, Int.ceil_intCast]
  · rw [hm, ht]
    have harg : ((751 : ℚ) / 125) / ((2 : ℤ) : ℚ) = 751 / 250 := by
      push_cast
      norm_num
    rw [harg]
    have hub : ⌈(751 / 250 : ℚ)⌉ ≤ 4 := Int.ceil_le.mpr (by norm_num)
    have hlb : (3 : ℤ) < ⌈(751 / 250 : ℚ)⌉ := Int.lt_ceil.mpr (by norm_num)
    omega

/-- C5 (amended): with the singularity floor off, the emitted per-thread
magnitude is exactly `ceil(total)` for one thread; for `threads > 1` it
is `ceil(round(total/threads, 2))` — Python's two-decimal banker's
rounding applied before the ceiling — which never exceeds the exact
ceiling and undershoots it by at most one. -/
theorem c5_amended (cfg : CookieConfig) (p : JobProperties) (u : MUnit)
    (hs : cfg.use_singularity = false) :
    (Submitter.threads cfg p = 1 →
      Submitter.perThread cfg p u = ⌈((Submitter.mem_mb cfg p).to u).value⌉) ∧
    (1 < Submitter.threads cfg p →
      Submitter.perThread cfg p u =
        ⌈pyRound2 (((Submitter.mem_mb cfg p).to u).value / (Submitter.threads cfg p : ℚ))⌉ ∧
      ⌈((Submitter.mem_mb cfg p).to u).value / (Submitter.threads cfg p : ℚ)⌉ - 1 ≤
        Submitter.perThread cfg p u ∧
      Submitter.perThread cfg p u ≤
        ⌈((Submitter.mem_mb cfg p).to u).value / (Submitter.threads cfg p : ℚ)⌉) := by
  have hpre : Submitter.perThread cfg p u = Submitter.perThreadPre cfg p u := by
    simp [Submitter.perThread, hs]
  constructor
  · intro h1
    rw [hpre]
    simp only [Submitter.perThreadPre, h1]
    rw [if_neg (by decide : ¬((1 : ℤ) < 1))]
  · intro h1
    rw [hpre]
    simp only [Submitter.perThreadPre]
    rw [if_pos h1]
    exact ⟨rfl, ceil_sub_one_le_ceil_pyRound2 _, ceil_pyRound2_le _⟩

/-- C5 witness: the amended theorem applied to `pC5` (2 threads). -/
theorem c5_witness :
    Submitter.perThread cfgStd pC5 MUnit.GIGA ≤
      ⌈((Submitter.mem_mb cfgStd pC5).to MUnit.GIGA).value /
          (Submitter.threads cfgStd pC5 : ℚ)⌉ :=
  ((c5_amended cfgStd pC5 MUnit.GIGA rfl).2 (by decide)).2.2

/-- C6: the spec claims process-level failure yields
`QsubInvocationError` and unparseable stdout yields `JobidNotFoundError`.
A failed invocation (exit 1) with empty stdout raises
`JobidNotFoundError`, not `QsubInvocationError`; a successful invocation
with non-empty, non-integer stdout raises an uncaught `ValueError`, not
`JobidNotFoundError`. -/
theorem c6_counterexample :
    Submitter.submit (1, "", "qsub: command failed") =
      Except.error SubExc.jobidNotFoundError ∧
    SubExc.jobidNotFoundError ≠ SubExc.qsubInvocationError ∧
    Submitter.submit (0, "qsub: no id here", "") = Except.error SubExc.valueError ∧
    SubExc.valueError ≠ SubExc.jobidNotFoundError :=
  ⟨rfl, by decide, rfl, by decide⟩

/-- C6 (amended): `run_process` uses `check=False`, so `submit` never
raises `QsubInvocationError`; empty stdout (whatever the exit code)
raises `JobidNotFoundError`, stdout parsing as an integer prints that
job id, and non-empty unparseable stdout raises an uncaught
`ValueError`. -/
theorem c6_amended (r : Int × String × String) :
    Submitter.submit r ≠ Except.error SubExc.qsubInvocationError ∧
    (r.2.1 = "" → Submitter.submit r = Except.error SubExc.jobidNotFoundError) ∧
    (∀ n : Int, pyParseInt r.2.1 = some n → Submitter.submit r = Except.ok n) ∧
    (r.2.1 ≠ "" → pyParseInt r.2.1 = none →
      Submitter.submit r = Except.error SubExc.valueError) := by
  refine ⟨?_, ?_, ?_, ?_⟩
  · unfold Submitter.submit
    split_ifs with h
    · intro hc
      exact absurd (Except.error.inj hc) (by decide)
    · cases hp : pyParseInt r.2.1 with
      | none => intro hc; exact absurd (Except.error.inj hc) (by decide)
      | some n => intro hc; exact Except.noConfusion hc
  · intro h
    unfold Submitter.submit
    rw [if_pos h]
  · intro n hp
    have hne : r.2.1 ≠ "" := by
      intro he
      rw [he] at hp
      exact Option.noConfusion hp
    unfold Submitter.submit
    rw [if_neg hne, hp]
  · intro hne hp
    unfold Submitter.submit
    rw [if_neg hne, hp]

/-- C6 witness: the amended theorem applied to a successful submission
triple. -/
theorem c6_witness : Submitter.submit (0, "8697223", "") = Except.ok 8697223 :=
  (c6_amended (0, "8697223", "")).2.2.1 8697223 rfl

/-- C7: the spec claims the thread count comes from `resources.threads`
and that non-positive values fail with `InvalidResourceError`.  With
`threads` only under `resources` the value is ignored in favour of the
site default, and a top-level `-3` is returned unvalidated. -/
theorem c7_counterexample :
    pC7a.resources_threads = some 7 ∧ pC7a.threads = none ∧
    Submitter.threads cfgStd pC7a = 8 ∧ ((8 : ℤ) ≠ 7) ∧
    Submitter.threads cfgStd pC7b = -3 :=
  ⟨rfl, rfl, rfl, by decide, rfl⟩

/-- C7 (amended): `Submitter.threads` is the top-level
`job_properties["threads"]` when present — whatever its value, with no
validation and no `InvalidResourceError` in the code — and the site
default otherwise; `resources` is never consulted. -/
theorem c7_amended (cfg : CookieConfig) (p : JobProperties) (t : Int) :
    (p.threads = some t → Submitter.threads cfg p = t) ∧
    (p.threads = none → Submitter.threads cfg p = cfg.default_threads) := by
  constructor <;> intro h <;> simp [Submitter.threads, h]

/-- C7 witness: the amended theorem applied to `pC7b`. -/
theorem c7_witness : Submitter.threads cfgStd pC7b = -3 :=
  (c7_amended cfgStd pC7b (-3)).1 rfl

/-- C8: group jobs take the leading hyphen-delimited segment of the raw
string `jobid`; single jobs take `str(jobid)` verbatim — a string id is
returned unchanged even when it contains a hyphen, and an integer id is
rendered in decimal. -/
theorem c8_jobid (p : JobProperties) (s : String) :
    (Submitter.is_group_jobtype p = true → p.jobid = some (JobIdVal.str s) →
      Submitter.jobid p = Except.ok ⟨s.data.takeWhile (fun c => c ≠ '-')⟩) ∧
    (Submitter.is_group_jobtype p = false → p.jobid = some (JobIdVal.str s) →
      Submitter.jobid p = Except.ok s) ∧
    (∀ n : Int, Submitter.is_group_jobtype p = false → p.jobid = some (JobIdVal.int n) →
      Submitter.jobid p = Except.ok (toString n)) := by
  refine ⟨?_, ?_, ?_⟩
  · intro hg hj
    unfold Submitter.jobid
    rw [if_pos hg, hj]
    show Except.ok (splitFirst s) = _
    rw [splitFirst_eq_takeWhile]
  · intro hg hj
    unfold Submitter.jobid
    rw [if_neg (by simp [hg]), hj]
    rfl
  · intro n hg hj
    unfold Submitter.jobid
    rw [if_neg (by simp [hg]), hj]
    rfl

/-- C8 witness: the theorem applied to the group job `pC8g` and the
single job `pC8s`. -/
theorem c8_witness :
    Submitter.jobid pC8g =
      Except.ok ⟨"a9722c33-51ba-5ac4-9f17-bab04c68bc3d".data.takeWhile (fun c => c ≠ '-')⟩ :=
  (c8_jobid pC8g "a9722c33-51ba-5ac4-9f17-bab04c68bc3d").1 rfl rfl

/-- C10: with the singularity site flag on, the per-thread magnitude
emitted in the `s_vmem` and `mem_req` flags is `max(4, computed)` and so
never falls below 4 target units. -/
theorem c10_sing_floor (cfg : CookieConfig) (p : JobProperties) (u : MUnit)
    (hs : cfg.use_singularity = true) :
    Submitter.perThread cfg p u = max 4 (Submitter.perThreadPre cfg p u) ∧
    (4 : ℤ) ≤ Submitter.perThread cfg p u ∧
    Submitter.resources_cmd cfg p u =
      Submitter.peCmd cfg p ++ "-l s_vmem=" ++ toString (Submitter.perThread cfg p u) ++ "G "
        ++ "-l mem_req=" ++ toString (Submitter.perThread cfg p u) ++ "G"
        ++ Submitter.runtimeSuffix p := by
  have hp : Submitter.perThread cfg p u = max 4 (Submitter.perThreadPre cfg p u) := by
    simp [Submitter.perThread, hs]
  refine ⟨hp, ?_, rfl⟩
  rw [hp]
  exact le_max_left _ _

/-- C10 witness: the theorem applied to `cfgSing` and `pC10`. -/
theorem c10_witness : (4 : ℤ) ≤ Submitter.perThread cfgSing pC10 MUnit.GIGA :=
  (c10_sing_floor cfgSing pC10 MUnit.GIGA rfl).2.1

end SnakemakeUge
